import Mathlib

/-!
# FlowLink screen-relay pipelines: a shallow embedding

This file embeds the core of the FlowLink repository's two screen-relay
pipelines in Lean 4 and proves properties about them.

* `Project/showscreen.py` — phone→PC mirroring: `ScreenCaptureThread`
  (a producer thread pushing device screenshots into a bounded
  `queue.Queue`), `get_screenshot_with_size` (the device-side capture
  via an external bridge executable), and `display_optimized_window`
  (the consumer/display loop with frame pacing).
* `Project/showPC.py` — PC→phone relay: the Flask handlers `screen`
  (`GET /screen`) and `handle_click` (`POST /click`).

Images, raw byte blobs and decoded bitmaps are modelled abstractly (as
type parameters or `ℕ` identifiers): the claims under study concern
buffering, control flow, arithmetic and error handling, never pixel
contents.  Python floats are modelled as `ℚ`; all inputs occurring in
the claims are exactly representable.  Sleep durations are rational
numbers of seconds.  Exceptions raised by external calls are modelled
with `Except`, and a Python `try/except` that swallows the exception
becomes a `match` whose error arm produces the fallback value.
-/

/-- Truncation of a rational toward zero, the semantics of Python's
`int(x)` on a (non-integral) float: floor for nonnegative arguments,
ceiling for negative ones. -/
def pyInt (q : ℚ) : ℤ := if 0 ≤ q then ⌊q⌋ else ⌈q⌉

/-! ## FrameQueue

`ScreenCaptureThread.__init__` creates `self.frame_queue =
Queue(maxsize=max_queue_size)` (showscreen.py line 14).  A Python
`queue.Queue` stores items in FIFO order; `full()` is
`0 < maxsize ≤ qsize()`, `get_nowait()` removes and returns the head
(raising `Empty` when empty), `put(item)` appends at the tail. -/

/-- A bounded FIFO queue: the state of a Python `queue.Queue`. -/
structure FrameQueue (α : Type) where
  maxsize : ℕ
  items : List α
  deriving Repr, DecidableEq

/-- `Queue(maxsize=n)` with no items. -/
def FrameQueue.empty (α : Type) (n : ℕ) : FrameQueue α := ⟨n, []⟩

/-- `Queue.full()`: `0 < maxsize and maxsize <= qsize()` (a queue with
`maxsize <= 0` is unbounded and never full). -/
def FrameQueue.isFull (q : FrameQueue α) : Bool :=
  decide (0 < q.maxsize) && decide (q.maxsize ≤ q.items.length)

/-- The producer's push (showscreen.py lines 24–29): if the queue is
full, drop the oldest entry (`get_nowait()`, with `Empty` swallowed),
then `put(frame)`. -/
def pushFrame (q : FrameQueue α) (f : α) : FrameQueue α :=
  let q1 := if q.isFull then { q with items := q.items.tail } else q
  { q1 with items := q1.items ++ [f] }

/-- A sequence of pushes with no intervening pops. -/
def pushAll (q : FrameQueue α) (fs : List α) : FrameQueue α :=
  fs.foldl pushFrame q

/-- `ScreenCaptureThread.get_latest_frame` (showscreen.py lines 72–76):
`get_nowait()`, returning `None` when the queue is empty.  Returns the
popped frame (if any) together with the remaining queue. -/
def get_latest_frame (q : FrameQueue α) : Option α × FrameQueue α :=
  match q.items with
  | [] => (none, q)
  | f :: rest => (some f, { q with items := rest })

/-! ## CaptureLoop: `ScreenCaptureThread`

`run` (showscreen.py lines 18–33) loops while `self.running`; each
iteration calls `get_screenshot_with_size`, pushes a non-`None` result
(evicting the oldest frame when the queue is full) and sleeps `0.01` s;
if anything in the loop body raises, the `except` arm sleeps `0.1` s.
One iteration is driven by what the capture attempt produced. -/

/-- Outcome of the body of one `run` iteration: a captured frame, a
`None` (Unavailable) capture, or an exception escaping the body. -/
inductive IterEvent (α : Type) where
  | captured (f : α)
  | unavailable
  | raised
  deriving Repr, DecidableEq

/-- One iteration of `ScreenCaptureThread.run`'s loop body: the new
queue together with the duration (in seconds) passed to `time.sleep`. -/
def runIteration (q : FrameQueue α) (ev : IterEvent α) : FrameQueue α × ℚ :=
  match ev with
  | .captured f => (pushFrame q f, 1/100)
  | .unavailable => (q, 1/100)
  | .raised => (q, 1/10)

/-- The mutable attributes set up by `ScreenCaptureThread.__init__`
(showscreen.py lines 11–16). -/
structure ThreadState (α : Type) where
  target_width : ℕ
  frame_queue : FrameQueue α
  running : Bool
  daemon : Bool
  deriving Repr, DecidableEq

/-- `ScreenCaptureThread.__init__(target_width=480, max_queue_size=2)`:
`running = True`, `daemon = True`, empty queue of the given capacity. -/
def ScreenCaptureThread.init {α : Type} (target_width : ℕ := 480)
    (max_queue_size : ℕ := 2) : ThreadState α :=
  { target_width := target_width
    frame_queue := FrameQueue.empty α max_queue_size
    running := true
    daemon := true }

/-- `ScreenCaptureThread.stop` (showscreen.py lines 78–80): set
`self.running = False`. -/
def ScreenCaptureThread.stop (s : ThreadState α) : ThreadState α :=
  { s with running := false }

/-- The `while self.running:` check at the top of `run` followed by one
loop body: `none` means the loop (and hence the thread) exits without
running another iteration. -/
def runStep (s : ThreadState α) (ev : IterEvent α) :
    Option (ThreadState α × ℚ) :=
  if s.running then
    let (q, t) := runIteration s.frame_queue ev
    some ({ s with frame_queue := q }, t)
  else none

/-! ## DisplayLoop pacing

`display_optimized_window` (showscreen.py lines 93–125): at the end of
each iteration, `sleep_time = max(0.001, 1.0/target_fps -
elapsed_frame)` and `time.sleep(sleep_time)`. -/

/-- The per-iteration sleep duration computed at showscreen.py lines
118–120. -/
def display_sleep (target_fps elapsed_frame : ℚ) : ℚ :=
  let target_frame_time := 1 / target_fps
  max (1/1000) (target_frame_time - elapsed_frame)

/-! ## Device-side capture: `get_screenshot_with_size`

showscreen.py lines 35–70.  The two `subprocess.run` invocations and
`cv2.imdecode` are external effects, modelled by an environment record:
`Except` carries a raised exception (executable not found, timeout),
`Option` the `imdecode` result (`None` when the bytes do not decode).
Raw screenshot bytes and decoded bitmaps are abstract `ℕ` identifiers.
The whole Python body sits in a `try/except` returning `None`, so every
failure arm of the model produces `none`. -/

/-- Result of a `subprocess.run` with `text=True`. -/
structure RunResult where
  stdout : String
  returncode : ℤ
  deriving Repr, DecidableEq

/-- Result of the `exec-out screencap -p` subprocess (binary stdout,
modelled as a blob identifier). -/
structure ShotResult where
  returncode : ℤ
  stdout : ℕ
  deriving Repr, DecidableEq

/-- External world as seen by one `get_screenshot_with_size` call. -/
structure CaptureEnv where
  /-- `adb shell wm size`: raised exception or completed process. -/
  wmSize : Except String RunResult
  /-- `adb exec-out screencap -p`: raised exception or completed process. -/
  screencap : Except String ShotResult
  /-- `cv2.imdecode` on the screenshot bytes: decoded image id or `None`. -/
  imdecode : ℕ → Option ℕ

/-- `"Physical size" in result.stdout`. -/
def hasPhysicalSize (s : String) : Bool :=
  2 ≤ (s.splitOn "Physical size").length

/-- `size_str = result.stdout.split(": ")[1].strip()` then
`w, h = map(int, size_str.split("x"))`; any `IndexError`/`ValueError`
becomes `.error` (to be caught by the surrounding `except`). -/
def parse_wm_size (stdout : String) : Except String (ℤ × ℤ) :=
  match stdout.splitOn ": " with
  | _ :: second :: _ =>
    let size_str := second.trim
    match (size_str.splitOn "x").mapM String.toInt? with
    | some [w, h] => .ok (w, h)
    | _ => .error "ValueError"
  | _ => .error "IndexError"

/-- A frame as produced by `cv2.resize(img, (width, height))`: the
decoded image id together with the target width and computed height. -/
structure Frame where
  img : ℕ
  width : ℕ
  height : ℤ
  deriving Repr, DecidableEq

/-- `get_screenshot_with_size(width)` (showscreen.py lines 35–70).
Every failure path — the size query raising, missing `"Physical size"`
marker, unparsable size output, a zero parsed width (Python
`ZeroDivisionError` on `width / w`), the screenshot subprocess raising,
a non-zero screenshot exit code, undecodable bytes — yields `none`,
mirroring the `return None` fall-throughs and the `except: return None`
wrapper. -/
def get_screenshot_with_size (env : CaptureEnv) (width : ℕ) : Option Frame :=
  match env.wmSize with
  | .error _ => none
  | .ok result =>
    if hasPhysicalSize result.stdout then
      match parse_wm_size result.stdout with
      | .error _ => none
      | .ok (w, h) =>
        if w = 0 then none
        else
          let scale : ℚ := (width : ℚ) / (w : ℚ)
          let height : ℤ := pyInt ((h : ℚ) * scale)
          match env.screencap with
          | .error _ => none
          | .ok shot =>
            if shot.returncode = 0 then
              match env.imdecode shot.stdout with
              | none => none
              | some img => some ⟨img, width, height⟩
            else none
    else none

/-! ## RelayServer: `GET /screen` (showPC.py lines 333–359)

`ImageGrab.grab()` may raise; the handler then builds a red 800×600
image carrying the failure text and still answers HTTP 200.  Encoded
response bodies are modelled symbolically: a successful response is the
grabbed screenshot encoded at the clamped quality, a failure response is
the synthesized error picture. -/

/-- External world of one `/screen` request: `ImageGrab.grab()` either
returns a screenshot (an abstract id) or raises with a message. -/
structure ScreenEnv where
  grab : Except String ℕ
  deriving Repr

/-- The image bytes sent back by `/screen`: either the screenshot
JPEG-encoded at a given quality, or the synthesized error picture
(red 800×600 with the failure text drawn on it). -/
inductive ImageBody where
  | captured (shot : ℕ) (quality : ℤ)
  | errorImage (text : String)
  deriving Repr, DecidableEq

/-- The `screen` handler on a request with integer quality parameter
`q`: returns the response body and the HTTP status code. -/
def screen (env : ScreenEnv) (q : ℤ) : ImageBody × ℕ :=
  match env.grab with
  | .ok shot => (.captured shot (max 10 (min 100 q)), 200)
  | .error e => (.errorImage ("截图失败: " ++ e), 200)

/-! ## RelayServer: `POST /click` (showPC.py lines 361–383)

`data.get('x', 0)` substitutes `0` for a missing coordinate;
`click_x = int(x * screen_width)` truncates toward zero;
`pyautogui.moveTo` / `click` may raise, in which case the `except`
arm answers `{'status': 'error', ...}` with HTTP 500. -/

/-- A parsed JSON body for `/click`: each coordinate may be absent. -/
structure ClickBody where
  x : Option ℚ
  y : Option ℚ
  deriving Repr, DecidableEq

/-- External world of one `/click` request: the screen size reported by
`pyautogui.size()` and the outcome of the move-and-click injection at
given absolute coordinates (`.error` models a raised exception). -/
structure PointerEnv where
  screen_width : ℕ
  screen_height : ℕ
  inject : ℤ → ℤ → Except String Unit

/-- JSON payload returned by `handle_click`. -/
inductive ClickResult where
  | success (x y : ℤ)
  | error (msg : String)
  deriving Repr, DecidableEq

/-- The `handle_click` handler: the JSON payload and the HTTP status. -/
def handle_click (env : PointerEnv) (body : ClickBody) : ClickResult × ℕ :=
  let x := body.x.getD 0
  let y := body.y.getD 0
  let click_x := pyInt (x * (env.screen_width : ℚ))
  let click_y := pyInt (y * (env.screen_height : ℚ))
  match env.inject click_x click_y with
  | .ok _ => (.success click_x click_y, 200)
  | .error msg => (.error msg, 500)

/-- A pointer environment whose injection always succeeds, at the
display size 1080×2400 of the spec's coordinate-mapping scenario. -/
def scenarioEnv : PointerEnv :=
  ⟨1080, 2400, fun _ _ => .ok ()⟩

/-- A capture environment in which the bridge executable is missing:
the very first `subprocess.run` raises. -/
def bridgeMissingEnv : CaptureEnv :=
  ⟨.error "FileNotFoundError", .error "FileNotFoundError", fun _ => none⟩

/-! ## Helper lemmas -/

theorem pushFrame_items_of_full (q : FrameQueue α) (f : α)
    (h : q.isFull = true) :
    (pushFrame q f).items = q.items.tail ++ [f] := by
  simp [pushFrame, h]

theorem pushFrame_items_of_not_full (q : FrameQueue α) (f : α)
    (h : q.isFull = false) :
    (pushFrame q f).items = q.items ++ [f] := by
  simp [pushFrame, h]

theorem pushFrame_maxsize (q : FrameQueue α) (f : α) :
    (pushFrame q f).maxsize = q.maxsize := by
  unfold pushFrame
  split <;> rfl

/-- Core invariant computation: starting from a queue whose length is
within capacity `N ≥ 1`, a sequence of pushes leaves exactly the last
`N` elements of `old contents ++ pushed` (all of them when they fit). -/
theorem pushAll_items (N : ℕ) (hN : 1 ≤ N) :
    ∀ (fs l : List α), l.length ≤ N →
      (pushAll ⟨N, l⟩ fs).items = (l ++ fs).drop (l.length + fs.length - N) := by
  intro fs
  induction fs with
  | nil =>
    intro l hl
    simp [pushAll, Nat.sub_eq_zero_of_le hl]
  | cons f rest ih =>
    intro l hl
    have hstep : pushAll (⟨N, l⟩ : FrameQueue α) (f :: rest)
        = pushAll (pushFrame ⟨N, l⟩ f) rest := rfl
    by_cases hfull : N ≤ l.length
    · -- the queue is at capacity: the oldest entry is evicted first
      have hlen : l.length = N := le_antisymm hl hfull
      have hfl : (⟨N, l⟩ : FrameQueue α).isFull = true := by
        simp [FrameQueue.isFull, hN, hfull]
        omega
      have hpush : pushFrame (⟨N, l⟩ : FrameQueue α) f
          = ⟨N, l.tail ++ [f]⟩ := by
        have := pushFrame_items_of_full (⟨N, l⟩ : FrameQueue α) f hfl
        have hmax := pushFrame_maxsize (⟨N, l⟩ : FrameQueue α) f
        cases hq : pushFrame (⟨N, l⟩ : FrameQueue α) f
        simp_all
      obtain ⟨a, l', rfl⟩ : ∃ a l', l = a :: l' := by
        cases l with
        | nil => simp at hlen; omega
        | cons a l' => exact ⟨a, l', rfl⟩
      have hlen' : (l'.tail ++ [f]).length ≤ N := by
        simp at hlen ⊢
        omega
      rw [hstep, hpush]
      simp only [List.tail_cons]
      rw [ih (l' ++ [f]) (by simp at hlen ⊢; omega)]
      have harith : (l' ++ [f]).length + rest.length - N = rest.length := by
        simp at hlen ⊢
        omega
      have harith2 : (a :: l').length + (f :: rest).length - N
          = rest.length + 1 := by
        simp at hlen ⊢
        omega
      rw [harith, harith2]
      simp [List.append_assoc]
    · -- below capacity: plain append
      have hnf : (⟨N, l⟩ : FrameQueue α).isFull = false := by
        simp [FrameQueue.isFull]
        omega
      have hpush : pushFrame (⟨N, l⟩ : FrameQueue α) f
          = ⟨N, l ++ [f]⟩ := by
        have := pushFrame_items_of_not_full (⟨N, l⟩ : FrameQueue α) f hnf
        have hmax := pushFrame_maxsize (⟨N, l⟩ : FrameQueue α) f
        cases hq : pushFrame (⟨N, l⟩ : FrameQueue α) f
        simp_all
      rw [hstep, hpush, ih (l ++ [f]) (by simp; omega)]
      have harith : (l ++ [f]).length + rest.length - N
          = l.length + (f :: rest).length - N := by
        simp
        omega
      rw [harith]
      simp [List.append_assoc]

/-! ## Claim theorems -/

/-- C1: for every capacity `N ≥ 1` (the constructor default is 2) and
every sequence of `N + k` successful pushes with no intervening pops,
the queue afterwards holds exactly `N` frames, namely the `(k+1)`-th
through `(N+k)`-th pushed; each push at capacity evicts exactly the
oldest entry before inserting, and the length never exceeds `N` at any
point along the sequence. -/
theorem frameQueue_bound {α : Type} (N k : ℕ) (hN : 1 ≤ N) (fs : List α)
    (hlen : fs.length = N + k) :
    (pushAll (FrameQueue.empty α N) fs).items = fs.drop k ∧
    (pushAll (FrameQueue.empty α N) fs).items.length = N ∧
    (∀ i, (pushAll (FrameQueue.empty α N) (fs.take i)).items.length ≤ N) ∧
    (∀ (q : FrameQueue α) (f : α), q.maxsize = N → q.items.length = N →
      (pushFrame q f).items = q.items.tail ++ [f]) ∧
    (ScreenCaptureThread.init (α := α)).frame_queue.maxsize = 2 := by
  have hmain := pushAll_items (α := α) N hN fs [] (by simp)
  simp only [List.nil_append, List.length_nil, Nat.zero_add] at hmain
  have hitems : (pushAll (FrameQueue.empty α N) fs).items = fs.drop k := by
    rw [show FrameQueue.empty α N = (⟨N, []⟩ : FrameQueue α) from rfl, hmain,
      hlen]
    congr 1
    omega
  refine ⟨hitems, ?_, ?_, ?_, rfl⟩
  · rw [hitems, List.length_drop, hlen]
    omega
  · intro i
    have h := pushAll_items (α := α) N hN (fs.take i) [] (by simp)
    simp only [List.nil_append, List.length_nil, Nat.zero_add] at h
    rw [show FrameQueue.empty α N = (⟨N, []⟩ : FrameQueue α) from rfl, h,
      List.length_drop]
    omega
  · intro q f hmax hfull
    refine pushFrame_items_of_full q f ?_
    simp [FrameQueue.isFull, hmax, hfull]
    omega

/-- C1 witness: capacity 2, three pushes. -/
theorem frameQueue_bound_witness :
    1 ≤ 2 ∧ ([10, 20, 30] : List ℕ).length = 2 + 1 ∧
    ((pushAll (FrameQueue.empty ℕ 2) [10, 20, 30]).items = [10, 20, 30].drop 1 ∧
     (pushAll (FrameQueue.empty ℕ 2) [10, 20, 30]).items.length = 2 ∧
     (∀ i, (pushAll (FrameQueue.empty ℕ 2) ([10, 20, 30].take i)).items.length ≤ 2) ∧
     (∀ (q : FrameQueue ℕ) (f : ℕ), q.maxsize = 2 → q.items.length = 2 →
        (pushFrame q f).items = q.items.tail ++ [f]) ∧
     (ScreenCaptureThread.init (α := ℕ)).frame_queue.maxsize = 2) :=
  ⟨by decide, by decide, frameQueue_bound 2 1 (by decide) [10, 20, 30] (by decide)⟩

/-- C2 counterexample: with the default capacity `N = 2`, pushing the
(pairwise distinct) frames `F1 = 1`, `F2 = 2`, `F3 = 3` with no
intervening pops leaves the queue holding `[2, 3]`, and popping once
returns frame 2 — the second pushed — because `get_nowait` takes the
FIFO front.  So the claim "the pop never returns F1 or F2" is false at
this input: its "never returns F2" conjunct fails. -/
theorem frameQueue_pop_second_cex :
    (pushAll (FrameQueue.empty ℕ 2) [1, 2, 3]).items = [2, 3] ∧
    (get_latest_frame (pushAll (FrameQueue.empty ℕ 2) [1, 2, 3])).1 = some 2 ∧
    ¬ ((get_latest_frame (pushAll (FrameQueue.empty ℕ 2) [1, 2, 3])).1
          ≠ some 1 ∧
       (get_latest_frame (pushAll (FrameQueue.empty ℕ 2) [1, 2, 3])).1
          ≠ some 2) := by
  decide

/-- C2 amended: for capacity `1 ≤ N < 3`, pushing F1, F2, F3 and then
popping once never returns F1 (the overflow discard is deterministic
drop-oldest, never drop-newest); the pop returns F3 when `N = 1` and F2
when `N = 2`. -/
theorem frameQueue_drop_oldest {α : Type} (N : ℕ) (h1 : 1 ≤ N) (h2 : N < 3)
    (F1 F2 F3 : α) :
    (get_latest_frame (pushAll (FrameQueue.empty α N) [F1, F2, F3])).1
      = some (if N = 1 then F3 else F2) ∧
    (F1 ≠ F2 → F1 ≠ F3 →
      (get_latest_frame (pushAll (FrameQueue.empty α N) [F1, F2, F3])).1
        ≠ some F1) := by
  interval_cases N <;>
    simp [pushAll, pushFrame, FrameQueue.isFull, FrameQueue.empty,
      get_latest_frame, List.foldl] <;>
    intro h1 h2 <;> simp_all <;>
    first
    | exact Ne.symm h2
    | exact Ne.symm h1

/-- C2 witness: capacity 2, frames 7, 8, 9. -/
theorem frameQueue_drop_oldest_witness :
    1 ≤ 2 ∧ 2 < 3 ∧
    ((get_latest_frame (pushAll (FrameQueue.empty ℕ 2) [7, 8, 9])).1
        = some (if 2 = 1 then 9 else 8) ∧
     ((7 : ℕ) ≠ 8 → (7 : ℕ) ≠ 9 →
       (get_latest_frame (pushAll (FrameQueue.empty ℕ 2) [7, 8, 9])).1
         ≠ some 7)) :=
  ⟨by decide, by decide, frameQueue_drop_oldest 2 (by decide) (by decide) 7 8 9⟩

/-- C3 counterexample: `handle_click` computes the absolute target with
Python `int()` truncation, not rounding.  For display size 1080×2400
and input `x = 13/16`, `y = 1/2` (both exactly representable floats),
the code resolves the x-coordinate to `int(877.5) = 877`, while the
claim's formula gives `round(877.5) = 878`. -/
theorem handle_click_truncates_cex :
    handle_click scenarioEnv ⟨some (13/16), some (1/2)⟩
      = (.success 877 1200, 200) ∧
    round ((13/16 : ℚ) * 1080) = 878 := by
  constructor
  · simp only [handle_click, scenarioEnv, Option.getD_some]
    norm_num [pyInt]
  · rw [round_eq]
    norm_num

/-- C3 amended: for every `POST /click` with body `{x, y}` whose
injection succeeds, the absolute target is `(int(x*width),
int(y*height))` — truncation toward zero, not rounding — from the
resolved display size, and the response is a success payload with those
integers and HTTP 200; for display size 1080×2400 and input
`{x: 0.5, y: 0.5}` the resolved target is `(540, 1200)`. -/
theorem handle_click_coords (env : PointerEnv) (body : ClickBody) (x y : ℚ)
    (hx : body.x = some x) (hy : body.y = some y)
    (hok : env.inject (pyInt (x * (env.screen_width : ℚ)))
        (pyInt (y * (env.screen_height : ℚ))) = .ok ()) :
    handle_click env body
      = (.success (pyInt (x * (env.screen_width : ℚ)))
          (pyInt (y * (env.screen_height : ℚ))), 200) ∧
    handle_click scenarioEnv ⟨some (1/2), some (1/2)⟩
      = (.success 540 1200, 200) := by
  constructor
  · simp [handle_click, hx, hy, hok]
  · simp only [handle_click, scenarioEnv, Option.getD_some]
    norm_num [pyInt]

/-- C3 witness: the 1080×2400, `(0.5, 0.5)` scenario. -/
theorem handle_click_coords_witness :
    (ClickBody.mk (some (1/2)) (some (1/2))).x = some (1/2) ∧
    (ClickBody.mk (some (1/2)) (some (1/2))).y = some (1/2) ∧
    scenarioEnv.inject (pyInt ((1/2) * (scenarioEnv.screen_width : ℚ)))
        (pyInt ((1/2) * (scenarioEnv.screen_height : ℚ))) = .ok () ∧
    (handle_click scenarioEnv ⟨some (1/2), some (1/2)⟩
        = (.success (pyInt ((1/2) * (scenarioEnv.screen_width : ℚ)))
            (pyInt ((1/2) * (scenarioEnv.screen_height : ℚ))), 200) ∧
     handle_click scenarioEnv ⟨some (1/2), some (1/2)⟩
        = (.success 540 1200, 200)) :=
  ⟨rfl, rfl, rfl,
   handle_click_coords scenarioEnv ⟨some (1/2), some (1/2)⟩ (1/2) (1/2)
     rfl rfl rfl⟩

/-- C4: every `GET /screen` request responds with HTTP 200; when the
capture raises, the handler answers with the synthesized error image
carrying the failure text, never an HTTP error status; and an error
image is distinct from every successfully captured response body. -/
theorem screen_always_200 (env : ScreenEnv) (q : ℤ) :
    (screen env q).2 = 200 ∧
    (∀ e, env.grab = .error e →
      (screen env q).1 = .errorImage ("截图失败: " ++ e)) ∧
    (∀ e shot qual, ImageBody.errorImage e ≠ ImageBody.captured shot qual) := by
  obtain ⟨g⟩ := env
  cases g <;> simp [screen]

/-- C4 witness: a request whose capture raises `OSError`. -/
theorem screen_always_200_witness :
    (screen ⟨.error "OSError"⟩ 70).2 = 200 ∧
    (screen ⟨.error "OSError"⟩ 70).1 = .errorImage ("截图失败: " ++ "OSError") :=
  ⟨(screen_always_200 ⟨.error "OSError"⟩ 70).1,
   (screen_always_200 ⟨.error "OSError"⟩ 70).2.1 "OSError" rfl⟩

/-- C5: for every `GET /screen` request with integer quality parameter
`q` whose capture succeeds, the frame is encoded at quality
`max(10, min(100, q))`; in particular `q = 5` encodes at 10 and
`q = 500` encodes at 100. -/
theorem screen_quality_clamp (env : ScreenEnv) (q : ℤ) (shot : ℕ)
    (h : env.grab = .ok shot) :
    (screen env q).1 = .captured shot (max 10 (min 100 q)) ∧
    (screen env 5).1 = .captured shot 10 ∧
    (screen env 500).1 = .captured shot 100 := by
  refine ⟨by simp [screen, h], ?_, ?_⟩ <;> simp [screen, h]

/-- C5 witness: a successful capture at qualities 70, 5 and 500. -/
theorem screen_quality_clamp_witness :
    (⟨.ok 42⟩ : ScreenEnv).grab = .ok 42 ∧
    ((screen ⟨.ok 42⟩ 70).1 = .captured 42 (max 10 (min 100 70)) ∧
     (screen ⟨.ok 42⟩ 5).1 = .captured 42 10 ∧
     (screen ⟨.ok 42⟩ 500).1 = .captured 42 100) :=
  ⟨rfl, screen_quality_clamp ⟨.ok 42⟩ 70 42 rfl⟩

/-- C6 counterexample: an iteration of `run` whose capture attempt
returns `None` (Unavailable) sleeps `0.01` s, exactly like a successful
iteration — not the `0.1` s the claim states; the `0.1` s sleep belongs
to the `except` arm alone. -/
theorem run_sleep_unavailable_cex :
    (runIteration (FrameQueue.empty ℕ 2) .unavailable).2 = 1/100 ∧
    (1/100 : ℚ) ≠ 1/10 :=
  ⟨rfl, by norm_num⟩

/-- C6 amended: in every iteration of the producer loop, after a
successful capture-and-push the loop sleeps `0.01` s, after an
Unavailable (`None`) capture it also sleeps `0.01` s, and it sleeps
`0.1` s only when the loop body raises an exception. -/
theorem run_iteration_sleep {α : Type} (q : FrameQueue α) (f : α) :
    (runIteration q (.captured f)).2 = 1/100 ∧
    (runIteration q (.captured f)).1 = pushFrame q f ∧
    (runIteration q .unavailable).2 = 1/100 ∧
    (runIteration q .unavailable).1 = q ∧
    (runIteration q .raised).2 = 1/10 :=
  ⟨rfl, rfl, rfl, rfl, rfl⟩

/-- C7: every failure mode of the device-side capture — the size query
raising (bridge executable not found, timeout), output without the
`"Physical size"` marker, unparsable size output, the screenshot
subprocess raising, a non-zero screenshot exit code, undecodable image
bytes — yields the Unavailable result `none` rather than an exception
(the model is a total function: the `try/except` wrapper turns every
raise into `return None`); a frame is returned only when every step
succeeds, and it is the decoded image resized to the requested width
and aspect-preserving height. -/
theorem get_screenshot_unavailable_on_failure (env : CaptureEnv) (width : ℕ) :
    (∀ e, env.wmSize = .error e → get_screenshot_with_size env width = none) ∧
    (∀ r, env.wmSize = .ok r → hasPhysicalSize r.stdout = false →
      get_screenshot_with_size env width = none) ∧
    (∀ r e, env.wmSize = .ok r → parse_wm_size r.stdout = .error e →
      get_screenshot_with_size env width = none) ∧
    (∀ e, env.screencap = .error e → get_screenshot_with_size env width = none) ∧
    (∀ s, env.screencap = .ok s → s.returncode ≠ 0 →
      get_screenshot_with_size env width = none) ∧
    (∀ s, env.screencap = .ok s → env.imdecode s.stdout = none →
      get_screenshot_with_size env width = none) ∧
    (∀ fr, get_screenshot_with_size env width = some fr →
      ∃ r w h s img, env.wmSize = .ok r ∧ hasPhysicalSize r.stdout = true ∧
        parse_wm_size r.stdout = .ok (w, h) ∧ w ≠ 0 ∧
        env.screencap = .ok s ∧ s.returncode = 0 ∧
        env.imdecode s.stdout = some img ∧
        fr = ⟨img, width, pyInt ((h : ℚ) * ((width : ℚ) / (w : ℚ)))⟩) := by
  obtain ⟨wm, sc, dec⟩ := env
  unfold get_screenshot_with_size
  cases wm with
  | error e => simp
  | ok r =>
    simp only [Except.ok.injEq]
    cases hps : hasPhysicalSize r.stdout with
    | false => simp
    | true =>
      simp only [if_true]
      cases hp : parse_wm_size r.stdout with
      | error e => simp
      | ok wh =>
        obtain ⟨w, h⟩ := wh
        by_cases hw : w = 0
        · subst hw; simp
        · simp only [hw, if_false]
          cases sc with
          | error e => simp
          | ok s =>
            by_cases hrc : s.returncode = 0
            · simp only [hrc, if_true]
              cases hd : dec s.stdout with
              | none => simp
              | some img =>
                simp only []
                constructor
                · intro e he; cases he
                · refine ⟨fun r' hr' hf => ?_, fun r' e hr' hpe => ?_,
                    fun e he => ?_, fun s' hs' hne => ?_, fun s' hs' hdn => ?_,
                    fun fr hfr => ?_⟩
                  · cases hr'; simp_all
                  · cases hr'; simp_all
                  · cases he
                  · cases hs'; simp_all
                  · cases hs'; simp_all
                  · refine ⟨r, w, h, s, img, rfl, hps, hp, hw, rfl, hrc, hd, ?_⟩
                    cases hfr
                    rfl
            · simp [hrc]

/-- C7 witness: a run in which the bridge executable is missing. -/
theorem get_screenshot_unavailable_witness :
    bridgeMissingEnv.wmSize = .error "FileNotFoundError" ∧
    get_screenshot_with_size bridgeMissingEnv 480 = none :=
  ⟨rfl, (get_screenshot_unavailable_on_failure bridgeMissingEnv 480).1
    "FileNotFoundError" rfl⟩

/-- C8: in every display-loop iteration the sleep after rendering is
exactly `max(ε, 1/target_fps − elapsed_this_frame)` with the positive
constant `ε = 0.001`; it is therefore always positive (never negative),
it is at least the remaining part of the target frame interval, and
when the iteration finished at least `ε` early it equals that remaining
part exactly. -/
theorem display_sleep_pacing (target_fps elapsed_frame : ℚ) :
    display_sleep target_fps elapsed_frame
      = max (1/1000) (1/target_fps - elapsed_frame) ∧
    (0 : ℚ) < 1/1000 ∧
    0 < display_sleep target_fps elapsed_frame ∧
    1/target_fps - elapsed_frame ≤ display_sleep target_fps elapsed_frame ∧
    (elapsed_frame ≤ 1/target_fps - 1/1000 →
      display_sleep target_fps elapsed_frame
        = 1/target_fps - elapsed_frame) := by
  refine ⟨rfl, by norm_num, ?_, le_max_right _ _, fun hearly => ?_⟩
  · exact lt_of_lt_of_le (by norm_num) (le_max_left _ _)
  · exact max_eq_right (by linarith)

/-- C8 witness: target 15 fps with 20 ms spent in the iteration. -/
theorem display_sleep_pacing_witness :
    (1/50 : ℚ) ≤ 1/15 - 1/1000 ∧
    display_sleep 15 (1/50) = 1/15 - 1/50 :=
  ⟨by norm_num, (display_sleep_pacing 15 (1/50)).2.2.2.2 (by norm_num)⟩

/-- C9: cancellation is cooperative: `stop()` just clears the `running`
flag, the flag is checked at the top of every loop iteration, so after
`stop()` no further iteration starts (the thread finishes at most the
iteration in progress and exits), and the thread is created as a daemon
(`__init__` sets `daemon = True`), both with explicit arguments and
with the defaults. -/
theorem stop_cooperative {α : Type} (s : ThreadState α) (ev : IterEvent α)
    (tw mq : ℕ) :
    runStep (ScreenCaptureThread.stop s) ev = none ∧
    (s.running = false → runStep s ev = none) ∧
    (ScreenCaptureThread.stop s).running = false ∧
    (ScreenCaptureThread.init (α := α) tw mq).daemon = true ∧
    (ScreenCaptureThread.init (α := α)).daemon = true := by
  refine ⟨?_, fun hr => ?_, rfl, rfl, rfl⟩
  · simp [runStep, ScreenCaptureThread.stop]
  · simp [runStep, hr]

/-- C9 witness: a stopped thread state takes no further step. -/
theorem stop_cooperative_witness :
    (⟨480, FrameQueue.empty ℕ 2, false, true⟩ : ThreadState ℕ).running = false ∧
    runStep (⟨480, FrameQueue.empty ℕ 2, false, true⟩ : ThreadState ℕ)
      IterEvent.unavailable = none :=
  ⟨rfl, (stop_cooperative ⟨480, FrameQueue.empty ℕ 2, false, true⟩
    IterEvent.unavailable 480 2).2.1 rfl⟩

/-- C10: a `POST /click` whose JSON body omits `x` or `y` (or both) is
not rejected as malformed: `data.get('x', 0)` substitutes 0 for the
missing coordinate, the handler injects a move-and-click at the
corresponding screen edge, and (when the injection call does not raise)
the response is a success payload with HTTP 200. -/
theorem handle_click_missing_defaults (env : PointerEnv)
    (hok : ∀ a b, env.inject a b = .ok ()) :
    (∀ y, handle_click env ⟨none, some y⟩
        = (.success 0 (pyInt (y * (env.screen_height : ℚ))), 200)) ∧
    (∀ x, handle_click env ⟨some x, none⟩
        = (.success (pyInt (x * (env.screen_width : ℚ))) 0, 200)) ∧
    handle_click env ⟨none, none⟩ = (.success 0 0, 200) := by
  have hzero : pyInt 0 = 0 := by norm_num [pyInt]
  refine ⟨fun y => ?_, fun x => ?_, ?_⟩ <;>
    simp [handle_click, hok, hzero]

/-- C10 witness: both coordinates missing at display size 1080×2400. -/
theorem handle_click_missing_defaults_witness :
    scenarioEnv.inject 0 0 = .ok () ∧
    handle_click scenarioEnv ⟨none, none⟩ = (.success 0 0, 200) :=
  ⟨rfl, (handle_click_missing_defaults scenarioEnv (fun _ _ => rfl)).2.2⟩
